import Mathlib

/-!
Verification of the task-execution engine of `multi_agent.py` (Multi-Agent-System).

The Python source is shallowly embedded: dictionaries and sets become functions,
Playwright/LLM interactions become oracle-supplied environments, integers stay
`Nat`/`Int` (Python ints are unbounded), and every definition mirrors the
control flow of the corresponding Python function.
-/

set_option maxHeartbeats 1000000

namespace MultiAgent

/-! ## String helpers mirroring Python builtins -/

/-- Python `needle in hay` (substring containment), at the level of char lists:
true iff `needle` is a prefix of some suffix of the list. -/
def strContainsAux (needle : List Char) : List Char → Bool
  | [] => needle.isPrefixOf []
  | c :: cs => needle.isPrefixOf (c :: cs) || strContainsAux needle cs

/-- Python `needle in hay` for strings. -/
def strContains (hay needle : String) : Bool :=
  strContainsAux needle.data hay.data

/-- Python `str.lower()` (the targets handled here are ASCII, where Python's
`lower` and `Char.toLower` agree). Defined over the char list so it reduces
in the kernel. -/
def pyLower (s : String) : String :=
  String.mk (s.data.map Char.toLower)

/-- Python `c in s` for a single character. -/
def pyContainsChar (s : String) (c : Char) : Bool :=
  s.data.contains c

/-- Python `s.strip()`: whitespace removed from both ends. -/
def pyTrim (s : String) : String :=
  String.mk (((s.data.dropWhile Char.isWhitespace).reverse.dropWhile Char.isWhitespace).reverse)

/-- Python `s[:n]`. -/
def pyTake (s : String) (n : Nat) : String :=
  String.mk (s.data.take n)

/-- Helper for `splitWs`: words of a char list, accumulating the current word
reversed. -/
def splitWsAux : List Char → List Char → List String
  | [], acc => if acc.isEmpty then [] else [String.mk acc.reverse]
  | c :: cs, acc =>
    if c.isWhitespace then
      (if acc.isEmpty then [] else [String.mk acc.reverse]) ++ splitWsAux cs []
    else splitWsAux cs (c :: acc)

/-- Python `str.split()` with no argument: split on whitespace runs and drop
empty pieces. -/
def splitWs (s : String) : List String :=
  splitWsAux s.data []

/-- Python truthiness of an `Optional[str]`: `None` and the empty string are
falsy. -/
def pyTruthy : Option String → Bool
  | none => false
  | some s => !s.isEmpty

/-! ## FormFieldTracker (multi_agent.py lines 41-84) -/

/-- State of `FormFieldTracker`: `filled_fields` and `field_attempts` are
Python dicts (modelled as total functions, `.get(k, default)` semantics),
`filled_positions` a set of Y-buckets, plus the three phase booleans. -/
structure FormFieldTracker where
  filled_fields : String → Option String
  field_attempts : String → Nat
  filled_positions : Int → Bool
  content_created : Bool
  choice_made : Bool
  in_creation_flow : Bool

/-- The freshly constructed tracker (`__init__`). -/
def FormFieldTracker.init : FormFieldTracker :=
  ⟨fun _ => none, fun _ => 0, fun _ => false, false, false, false⟩

/-- `create_field_key`: the Python f-string `f"{field_id}|{purpose}|{position_y//100}"`.
Python `//` is floor division, hence `Int.fdiv`. -/
def create_field_key (field_id purpose : String) (position_y : Int) : String :=
  field_id ++ "|" ++ purpose ++ "|" ++ toString (position_y.fdiv 100)

/-- `mark_filled`: record the value, bump the attempt count, register the
Y-bucket. -/
def FormFieldTracker.mark_filled (t : FormFieldTracker)
    (field_id purpose value : String) (position_y : Int) : FormFieldTracker :=
  let key := create_field_key field_id purpose position_y
  { t with
    filled_fields := fun k => if k = key then some value else t.filled_fields k
    field_attempts := fun k => if k = key then t.field_attempts key + 1 else t.field_attempts k
    filled_positions := fun b => if b = position_y.fdiv 100 then true else t.filled_positions b }

/-- `is_filled`: membership of the key in the `filled_fields` dict. -/
def FormFieldTracker.is_filled (t : FormFieldTracker)
    (field_id purpose : String) (position_y : Int) : Bool :=
  (t.filled_fields (create_field_key field_id purpose position_y)).isSome

/-- `get_attempts`: `self.field_attempts.get(field_key, 0)`. -/
def FormFieldTracker.get_attempts (t : FormFieldTracker)
    (field_id purpose : String) (position_y : Int) : Nat :=
  t.field_attempts (create_field_key field_id purpose position_y)

/-- `reset`: clear all maps/sets and the three phase flags. -/
def FormFieldTracker.reset (_t : FormFieldTracker) : FormFieldTracker :=
  FormFieldTracker.init

/-! ## Injectivity of the decimal rendering used by `create_field_key`

The Python f-string renders `position_y // 100` in decimal; to reason about
key equality we prove that `toString : Int → String` is injective, via a
parse round-trip through `Nat.toDigitsCore`. -/

/-- Numeric value of a decimal digit character. -/
def digitVal (c : Char) : Nat := c.toNat - 48

/-- Left-to-right decimal parse of a digit list. -/
def parseDigits (ds : List Char) : Nat :=
  ds.foldl (fun a c => 10 * a + digitVal c) 0

theorem digitVal_digitChar : ∀ m, m < 10 → digitVal (Nat.digitChar m) = m := by decide

theorem digitChar_ne_minus : ∀ m, m < 10 → Nat.digitChar m ≠ '-' := by decide

theorem toDigitsCore_append (fuel : Nat) :
    ∀ (n : Nat) (ds : List Char),
      Nat.toDigitsCore 10 fuel n ds = Nat.toDigitsCore 10 fuel n [] ++ ds := by
  induction fuel with
  | zero => intro n ds; simp [Nat.toDigitsCore]
  | succ fuel ih =>
    intro n ds
    simp only [Nat.toDigitsCore]
    by_cases h : n / 10 = 0
    · simp [h]
    · simp only [h, if_neg, ite_false]
      rw [ih (n / 10) (Nat.digitChar (n % 10) :: ds), ih (n / 10) [Nat.digitChar (n % 10)],
        List.append_assoc]
      rfl

theorem parse_toDigitsCore (fuel : Nat) :
    ∀ n, n < fuel → parseDigits (Nat.toDigitsCore 10 fuel n []) = n := by
  induction fuel with
  | zero => intro n h; omega
  | succ fuel ih =>
    intro n h
    have hmod : n % 10 < 10 := Nat.mod_lt _ (by omega)
    have hdm := Nat.div_add_mod n 10
    simp only [Nat.toDigitsCore]
    by_cases h0 : n / 10 = 0
    · simp only [h0, ite_true]
      simp [parseDigits, digitVal_digitChar _ hmod]
      omega
    · simp only [h0, ite_false]
      rw [toDigitsCore_append fuel (n / 10) [Nat.digitChar (n % 10)]]
      have hlt : n / 10 < fuel := by
        have := Nat.div_lt_self (by omega : 0 < n) (by omega : 1 < 10)
        omega
      simp [parseDigits, List.foldl_append] at *
      rw [show (Nat.toDigitsCore 10 fuel (n / 10) []).foldl
            (fun a c => 10 * a + digitVal c) 0 = n / 10 from ih (n / 10) hlt]
      rw [digitVal_digitChar _ hmod]
      omega

theorem toDigits_inj {m n : Nat} (h : Nat.toDigits 10 m = Nat.toDigits 10 n) : m = n := by
  have hm := parse_toDigitsCore (m + 1) m (by omega)
  have hn := parse_toDigitsCore (n + 1) n (by omega)
  unfold Nat.toDigits at h
  rw [h, hn] at hm
  exact hm.symm

theorem toDigitsCore_no_minus (fuel : Nat) :
    ∀ (n : Nat) (ds : List Char), '-' ∉ ds → '-' ∉ Nat.toDigitsCore 10 fuel n ds := by
  induction fuel with
  | zero => intro n ds hds; simpa [Nat.toDigitsCore] using hds
  | succ fuel ih =>
    intro n ds hds
    have hmod : n % 10 < 10 := Nat.mod_lt _ (by omega)
    have hd := digitChar_ne_minus _ hmod
    simp only [Nat.toDigitsCore]
    by_cases h0 : n / 10 = 0
    · simp only [h0, ite_true]
      intro hmem
      rcases List.mem_cons.mp hmem with h1 | h1
      · exact hd h1.symm
      · exact hds h1
    · simp only [h0, ite_false]
      apply ih
      intro hmem
      rcases List.mem_cons.mp hmem with h1 | h1
      · exact hd h1.symm
      · exact hds h1

theorem natRepr_data (n : Nat) : (Nat.repr n).data = Nat.toDigits 10 n := rfl

theorem intToString_data_inj {a b : Int} :
    (toString a).data = (toString b).data → a = b := by
  cases a with
  | ofNat m =>
    cases b with
    | ofNat k =>
      intro h
      have h' : Nat.toDigits 10 m = Nat.toDigits 10 k := h
      exact congrArg Int.ofNat (toDigits_inj h')
    | negSucc k =>
      intro h
      have h' : Nat.toDigits 10 m = '-' :: Nat.toDigits 10 (k + 1) := h
      have : '-' ∈ Nat.toDigits 10 m := by rw [h']; exact List.mem_cons_self _ _
      exact absurd this (toDigitsCore_no_minus _ _ _ (by simp))
  | negSucc m =>
    cases b with
    | ofNat k =>
      intro h
      have h' : '-' :: Nat.toDigits 10 (m + 1) = Nat.toDigits 10 k := h
      have : '-' ∈ Nat.toDigits 10 k := by rw [← h']; exact List.mem_cons_self _ _
      exact absurd this (toDigitsCore_no_minus _ _ _ (by simp))
    | negSucc k =>
      intro h
      have h' : '-' :: Nat.toDigits 10 (m + 1) = '-' :: Nat.toDigits 10 (k + 1) := h
      injection h' with h1 h2
      have h3 := toDigits_inj h2
      have h4 : m = k := by omega
      exact congrArg Int.negSucc h4

/-- Key equality for a fixed field id and purpose is exactly equality of the
floor-of-100 buckets: the rendered key differs only in the decimal rendering
of `position_y // 100`, and `toString : Int → String` is injective. -/
theorem create_field_key_eq_iff (fid p : String) (y1 y2 : Int) :
    create_field_key fid p y1 = create_field_key fid p y2 ↔ y1.fdiv 100 = y2.fdiv 100 := by
  constructor
  · intro h
    unfold create_field_key at h
    have h2 := congrArg String.data h
    simp only [String.data_append] at h2
    exact intToString_data_inj (List.append_cancel_left h2)
  · intro h
    unfold create_field_key
    rw [h]

/-- Modelled from the spec: "the vertical pixel position bucketed to the
nearest 100px" — rounding to the nearest multiple of 100 (half rounds up). -/
def nearest100Bucket (y : Int) : Int := (y + 50).fdiv 100

/-- C7 counterexample: Y positions 90 and 110 fall in the same nearest-100px
bucket (both round to 100), yet `create_field_key` renders distinct keys,
because the code buckets by floor division `position_y // 100`, not by
rounding to the nearest 100. -/
theorem c7_counterexample_nearest_bucket :
    nearest100Bucket 90 = nearest100Bucket 110
      ∧ create_field_key "a" "name" 90 ≠ create_field_key "a" "name" 110 := by
  constructor
  · decide
  · decide

/-- C7 (amended): `create_field_key` composes the key from the field id, the
purpose tag, and the Y position bucketed by floor division by 100 (Python
`position_y // 100`); for all fieldId, purpose, y1, y2, the keys are equal
exactly when the two floor-of-100 buckets coincide. -/
theorem c7_field_key_floor_bucket (fid p : String) (y1 y2 : Int) :
    create_field_key fid p y1 = create_field_key fid p y2 ↔ y1.fdiv 100 = y2.fdiv 100 :=
  create_field_key_eq_iff fid p y1 y2

/-- C4: after `mark_filled` on a key the key reads as filled; it stays filled
across any single further `mark_filled` call and across any sequence of
further `mark_filled` calls; immediately after `reset`, every key reads
unfilled. -/
theorem c4_mark_filled_is_filled_until_reset
    (t : FormFieldTracker) (fid p v : String) (y : Int) :
    ((t.mark_filled fid p v y).is_filled fid p y = true)
    ∧ (∀ (t' : FormFieldTracker) (fid' p' v' : String) (y' : Int),
        t'.is_filled fid p y = true →
        (t'.mark_filled fid' p' v' y').is_filled fid p y = true)
    ∧ (∀ (ops : List (String × String × String × Int)) (t' : FormFieldTracker),
        t'.is_filled fid p y = true →
        (ops.foldl (fun s o => s.mark_filled o.1 o.2.1 o.2.2.1 o.2.2.2) t').is_filled
          fid p y = true)
    ∧ (∀ t' : FormFieldTracker, (FormFieldTracker.reset t').is_filled fid p y = false) := by
  refine ⟨?_, ?_, ?_, ?_⟩
  · simp [FormFieldTracker.mark_filled, FormFieldTracker.is_filled]
  · intro t' fid' p' v' y' h
    simp only [FormFieldTracker.mark_filled, FormFieldTracker.is_filled] at *
    by_cases hk : create_field_key fid p y = create_field_key fid' p' y'
    · simp [hk]
    · simp [hk]
      exact h
  · intro ops
    induction ops with
    | nil => intro t' h; simpa using h
    | cons o rest ih =>
      intro t' h
      simp only [List.foldl_cons]
      apply ih
      simp only [FormFieldTracker.mark_filled, FormFieldTracker.is_filled] at *
      by_cases hk : create_field_key fid p y = create_field_key o.1 o.2.1 o.2.2.2
      · simp [hk]
      · simp [hk]
        exact h
  · intro t'
    simp [FormFieldTracker.reset, FormFieldTracker.init, FormFieldTracker.is_filled]

/-- C4 witness: the persistence and reset clauses discharged at concrete
inputs. -/
theorem c4_witness :
    ((FormFieldTracker.init.mark_filled "f" "name" "v" 120).is_filled "f" "name" 120 = true)
    ∧ (((FormFieldTracker.init.mark_filled "f" "name" "v" 120).mark_filled
          "g" "other" "w" 300).is_filled "f" "name" 120 = true) := by
  have h := c4_mark_filled_is_filled_until_reset FormFieldTracker.init "f" "name" "v" 120
  exact ⟨h.1, h.2.1 _ "g" "other" "w" 300 h.1⟩

/-! ## Element resolver: `_smart_click` (multi_agent.py lines 1095-1244)

Playwright is external: a `ClickPage` oracle supplies, for each selector
string, the first matching candidate (`locator(...).first`, `none` when the
count is 0 or the lookup raises), and the list of all button/role=button
elements for the last-resort scan. A candidate carries the facts the code
queries: visibility, the combined disabled check
(`el.disabled || aria-disabled='true'`), `text_content()` (`none` models
Python `None`), and whether the physical click completes without raising. -/

/-- Candidate element as `_smart_click` observes it. -/
structure ClickCand where
  visible : Bool
  disabled : Bool
  text_content : Option String
  click_ok : Bool

/-- Oracle for the live page, keyed by selector string. -/
structure ClickPage where
  firstCand : String → Option ClickCand
  allButtons : List ClickCand

/-- Keywords classifying a click target as an intermediate action (line 1102). -/
def clickIntermediateWords : List String :=
  ["continue", "next", "proceed", "choose", "select", "skip", "add"]

/-- Phrases classifying a click target as a final submit (line 1104). -/
def clickFinalSubmitPhrases : List String :=
  ["create repository", "create project", "create issue", "submit", "publish", "save"]

/-- Phrases the intermediate-click guard rejects in a candidate's text (line 1199). -/
def buttonTextFinalPhrases : List String :=
  ["create repository", "create project", "create issue", "submit"]

/-- Python `any(word in target.lower() for word in [...])` over the
intermediate keywords. -/
def is_intermediate_target (target : String) : Bool :=
  clickIntermediateWords.any (fun w => strContains (pyLower target) w)

/-- Python `any(phrase in target.lower() for phrase in [...])` over the
final-submit phrases. -/
def is_final_submit_target (target : String) : Bool :=
  clickFinalSubmitPhrases.any (fun ph => strContains (pyLower target) ph)

/-- Ordered selector-strategy list `_smart_click` builds (lines 1098-1175). -/
def click_strategies (target selector_type : String) : List String :=
  let keywords := splitWs (pyLower target)
  let is_int := is_intermediate_target target
  let is_fin := is_final_submit_target target
  if selector_type = "text" then
    (if is_fin && pyContainsChar target ' ' then
      ["button:has-text('" ++ target ++ "'):not([disabled])",
       "[role='button']:has-text('" ++ target ++ "'):not([aria-disabled='true'])",
       "text=/^" ++ target ++ "$/i",
       ":text-is('" ++ target ++ "')",
       "button:text-is('" ++ target ++ "')",
       "button >> text=/" ++ target ++ "/i",
       "[type='submit']:has-text('" ++ target ++ "')"]
    else
      ["text=/^" ++ target ++ "$/i",
       ":text-is('" ++ target ++ "')"])
    ++ (if is_int then
      ["button:has-text('" ++ target ++ "'):not([disabled])",
       "[role='button']:has-text('" ++ target ++ "'):not([aria-disabled='true'])"]
      else [])
    ++ ["button:has-text('" ++ target ++ "')",
        "a:has-text('" ++ target ++ "')",
        "[role='button']:has-text('" ++ target ++ "')",
        "[role='link']:has-text('" ++ target ++ "')",
        "summary:has-text('" ++ target ++ "')"]
    ++ ["text=/" ++ target ++ "/i", ":text('" ++ target ++ "')"]
    ++ (if !is_fin || !pyContainsChar target ' ' then
        (keywords.map (fun w =>
          if w.length > 3 then
            ["button:has-text('" ++ w ++ "'):not([disabled])",
             "[role='button']:has-text('" ++ w ++ "'):not([aria-disabled='true'])"]
          else [])).flatten
      else [])
  else if selector_type = "placeholder" then
    ["[placeholder='" ++ target ++ "' i]", "[placeholder*='" ++ target ++ "' i]"]
  else if selector_type = "aria_label" then
    ["[aria-label='" ++ target ++ "' i]", "[aria-label*='" ++ target ++ "' i]"]
  else if selector_type = "id" then
    ["#" ++ target, "[id='" ++ target ++ "']"]
  else if selector_type = "name" then
    ["[name='" ++ target ++ "']", "[name*='" ++ target ++ "' i]"]
  else []

/-- Intermediate-target guard (lines 1196-1201): skip the candidate when it is
an intermediate click but the candidate's text reads as a final submit.
Python skips the check when `text_content()` is `None` or empty (falsy). -/
def clickTextSkip (is_int : Bool) (c : ClickCand) : Bool :=
  is_int && (match c.text_content with
    | some t => !t.isEmpty && buttonTextFinalPhrases.any (fun ph => strContains (pyLower t) ph)
    | none => false)

/-- Final-submit guard (lines 1203-1209): for a multi-word final-submit
target, skip a candidate whose text does not contain the full target phrase.
Python skips the check when `text_content()` is `None` or empty (falsy). -/
def clickFinalSkip (is_fin : Bool) (target : String) (c : ClickCand) : Bool :=
  is_fin && pyContainsChar target ' ' && (match c.text_content with
    | some t => !t.isEmpty && !strContains (pyLower t) (pyLower target)
    | none => false)

/-- The strategy loop of `_smart_click` (lines 1177-1217): every rejected
check falls through to the next strategy (`continue`), exactly as each
Python `continue`/caught exception does; a candidate is accepted when it is
visible, not disabled, passes both text guards and its click completes. -/
def clickLoop (is_int is_fin : Bool) (target : String) (page : ClickPage) :
    Nat → List String → Option (Nat × ClickCand)
  | _, [] => none
  | i, s :: rest =>
    match page.firstCand s with
    | none => clickLoop is_int is_fin target page (i + 1) rest
    | some c =>
      if c.visible && !c.disabled && !clickTextSkip is_int c
          && !clickFinalSkip is_fin target c && c.click_ok then
        some (i, c)
      else clickLoop is_int is_fin target page (i + 1) rest

/-- Last-resort scan (lines 1220-1242): over all button/role=button elements,
accept the first whose text is truthy and contains every word of the target
(unordered), that is enabled, visible, and whose click completes. -/
def lastResortScan (words : List String) : List ClickCand → Option ClickCand
  | [] => none
  | b :: rest =>
    if pyTruthy b.text_content
        && words.all (fun w => strContains (pyLower (b.text_content.getD "")) (pyLower w))
        && !b.disabled && b.visible && b.click_ok then
      some b
    else lastResortScan words rest

/-- Which candidate `_smart_click` acts on: `some (some i, c)` when strategy
`i` (1-based) clicked `c`, `some (none, c)` when the last resort clicked `c`,
`none` when nothing was clicked. -/
def smart_click_choice (target selector_type : String) (page : ClickPage) :
    Option (Option Nat × ClickCand) :=
  match clickLoop (is_intermediate_target target) (is_final_submit_target target)
      target page 1 (click_strategies target selector_type) with
  | some (i, c) => some (some i, c)
  | none =>
    if is_final_submit_target target && pyContainsChar target ' ' then
      if (splitWs target).length = 2 then
        match lastResortScan (splitWs target) page.allButtons with
        | some c => some (none, c)
        | none => none
      else none
    else none

/-- `_smart_click`: result pair of the resolver (lines 1095-1244). -/
def _smart_click (target selector_type : String) (page : ClickPage) : Bool × String :=
  match smart_click_choice target selector_type page with
  | some (some i, _) => (true, "Clicked using strategy " ++ toString i)
  | some (none, _) => (true, "Clicked using last resort method")
  | none => (false, "Could not click: " ++ target)

/-- Facts true of every candidate the strategy loop accepts. -/
theorem clickLoop_sound (is_int is_fin : Bool) (target : String) (page : ClickPage) :
    ∀ (ss : List String) (i j : Nat) (c : ClickCand),
      clickLoop is_int is_fin target page i ss = some (j, c) →
      c.visible = true ∧ c.disabled = false ∧ clickTextSkip is_int c = false
        ∧ clickFinalSkip is_fin target c = false ∧ c.click_ok = true := by
  intro ss
  induction ss with
  | nil => intro i j c h; simp [clickLoop] at h
  | cons s rest ih =>
    intro i j c h
    simp only [clickLoop] at h
    cases hc : page.firstCand s with
    | none => simp only [hc] at h; exact ih (i + 1) j c h
    | some c0 =>
      simp only [hc] at h
      by_cases hcond : (c0.visible && !c0.disabled && !clickTextSkip is_int c0
          && !clickFinalSkip is_fin target c0 && c0.click_ok) = true
      · rw [if_pos hcond] at h
        injection h with h'
        injection h' with h1 h2
        subst h2
        simp only [Bool.and_eq_true, Bool.not_eq_true'] at hcond
        exact ⟨hcond.1.1.1.1, hcond.1.1.1.2, hcond.1.1.2, hcond.1.2, hcond.2⟩
      · rw [if_neg hcond] at h
        exact ih (i + 1) j c h

/-- Facts true of every candidate the last-resort scan accepts. -/
theorem lastResortScan_sound (words : List String) :
    ∀ (bs : List ClickCand) (c : ClickCand),
      lastResortScan words bs = some c →
      pyTruthy c.text_content = true
        ∧ words.all (fun w => strContains (pyLower (c.text_content.getD "")) (pyLower w)) = true
        ∧ c.disabled = false ∧ c.visible = true ∧ c.click_ok = true := by
  intro bs
  induction bs with
  | nil => intro c h; simp [lastResortScan] at h
  | cons b rest ih =>
    intro c h
    simp only [lastResortScan] at h
    by_cases hcond : (pyTruthy b.text_content
        && words.all (fun w => strContains (pyLower (b.text_content.getD "")) (pyLower w))
        && !b.disabled && b.visible && b.click_ok) = true
    · rw [if_pos hcond] at h
      injection h with h'
      subst h'
      simp only [Bool.and_eq_true, Bool.not_eq_true'] at hcond
      exact ⟨hcond.1.1.1.1, hcond.1.1.1.2, hcond.1.1.2, hcond.1.2, hcond.2⟩
    · rw [if_neg hcond] at h
      exact ih c h

/-! ## Element resolver: `_smart_type` (multi_agent.py lines 1246-1402)

A `TypePage` oracle supplies, for each selector string, the list of matching
candidates (`locator(selector)` with its count). A candidate carries
visibility, the bounding-box Y (`none` when `bounding_box()` returns null or
raises), the disabled state (which `_smart_type` never queries — recorded so
the disabled-safety claim can be stated), whether the pre-type click
completes, and whether each of the three input techniques (`fill`, keyboard
select-and-type, `press_sequentially`) completes without raising. -/

/-- Candidate input element as `_smart_type` observes it. -/
structure TypeCand where
  visible : Bool
  bboxY : Option Int
  disabled : Bool
  click_ok : Bool
  click_err : String
  fill_ok : Bool
  keyboard_ok : Bool
  seq_ok : Bool

/-- Oracle for the live page, keyed by selector string: `locator(selector)`
as a list of candidates. -/
structure TypePage where
  locatorMatches : String → List TypeCand

/-- Ordered selector-strategy list `_smart_type` builds (lines 1249-1287). -/
def type_strategies (target selector_type : String) (target_y : Int) : List String :=
  (if !target.isEmpty && !pyContainsChar target ' ' && target.length > 5 then
    ["#" ++ target, "input#" ++ target, "[id='" ++ target ++ "']"] else [])
  ++ (if !target.isEmpty then
    ["[name='" ++ target ++ "']", "[name*='" ++ target ++ "' i]"] else [])
  ++ (if selector_type = "placeholder" || !target.isEmpty then
    ["[placeholder='" ++ target ++ "' i]", "[placeholder*='" ++ target ++ "' i]",
     "[aria-placeholder*='" ++ target ++ "' i]"] else [])
  ++ (if selector_type = "aria_label" || !target.isEmpty then
    ["[aria-label='" ++ target ++ "' i]", "[aria-label*='" ++ target ++ "' i]"] else [])
  ++ (if !target.isEmpty then ["[data-testid*='" ++ target ++ "' i]"] else [])
  ++ (if !target.isEmpty && (splitWs target).length ≤ 3 then
    ["label:has-text('" ++ target ++ "') >> input",
     ":text('" ++ target ++ "') >> .. >> input"] else [])
  ++ (if target_y > 0 then
    ["input[type='text']:visible",
     "input:not([type='hidden']):not([type='submit']):visible",
     "textarea:visible"] else [])
  ++ ["[contenteditable='true']"]

/-- Distance threshold per strategy index (line 1313):
`max_distance = 150 if i > 6 else 80`. -/
def typeMaxDistance (i : Nat) : Nat := if i > 6 then 150 else 80

/-- Python `distance < best_distance`, where `none` models the initial
`best_distance = float('inf')`. -/
def beatsBest (distance : Nat) : Option (TypeCand × Nat × Nat) → Bool
  | none => true
  | some (_, d, _) => distance < d

/-- Early-exit test of the strategy loop for `target_y > 0` (line 1327):
`best_match and best_strategy_used <= 6 and best_distance < 50`. -/
def stopEarlyY : Option (TypeCand × Nat × Nat) → Bool
  | none => false
  | some (_, d, j) => decide (j ≤ 6) && decide (d < 50)

/-- The inner scan of one strategy's matches when a target Y was supplied
(lines 1304-1325): up to 5 matches, keep the candidate with the smallest
`|elementY - targetY|` seen so far that is under the strategy's threshold;
a distance under 20 short-circuits the scan. State `(candidate, distance,
strategy index)`; `none` models `best_distance = inf`. -/
def scanY (target_y : Int) (i : Nat) :
    List TypeCand → Option (TypeCand × Nat × Nat) → Option (TypeCand × Nat × Nat)
  | [], best => best
  | c :: rest, best =>
    if c.visible then
      match c.bboxY with
      | some y =>
        let distance := (y - target_y).natAbs
        if distance < typeMaxDistance i && beatsBest distance best then
          if distance < 20 then some (c, distance, i)
          else scanY target_y i rest (some (c, distance, i))
        else scanY target_y i rest best
      | none => scanY target_y i rest best
    else scanY target_y i rest best

/-- The strategy loop of `_smart_type` when `target_y > 0` (lines 1295-1328):
after scanning a strategy the loop stops early when the best candidate so
far came from a precise strategy (index ≤ 6) at distance under 50. -/
def typeLoopY (page : TypePage) (target_y : Int) :
    Nat → List String → Option (TypeCand × Nat × Nat) → Option (TypeCand × Nat × Nat)
  | _, [], best => best
  | i, s :: rest, best =>
    let cands := page.locatorMatches s
    if cands.length > 0 then
      let best' := scanY target_y i (cands.take 5) best
      if stopEarlyY best' then best'
      else typeLoopY page target_y (i + 1) rest best'
    else typeLoopY page target_y (i + 1) rest best

/-- The strategy loop of `_smart_type` when no target Y was supplied
(lines 1329-1342): take the first visible among a strategy's first two
matches and stop as soon as the winning strategy has index ≤ 6. -/
def typeLoop0 (page : TypePage) :
    Nat → List String → Option (TypeCand × Nat) → Option (TypeCand × Nat)
  | _, [], best => best
  | i, s :: rest, best =>
    let cands := page.locatorMatches s
    if cands.length > 0 then
      let best' := match (cands.take 2).find? (fun c => c.visible) with
        | some c => some (c, i)
        | none => best
      if best'.isSome && decide (i ≤ 6) then best'
      else typeLoop0 page (i + 1) rest best'
    else typeLoop0 page (i + 1) rest best

/-- Which candidate `_smart_type` acts on: the winning candidate, its
Y-distance (`none` when no target Y was supplied, where Python keeps
`best_distance = inf`), and the winning strategy index. -/
def smart_type_choice (target selector_type : String) (target_y : Int) (page : TypePage) :
    Option (TypeCand × Option Nat × Nat) :=
  let ss := type_strategies target selector_type target_y
  if target_y > 0 then
    match typeLoopY page target_y 1 ss none with
    | some (c, d, i) => some (c, some d, i)
    | none => none
  else
    match typeLoop0 page 1 ss none with
    | some (c, i) => some (c, none, i)
    | none => none

/-- `_smart_type` (lines 1246-1402): on the chosen candidate, click (both
click attempts failing raises out to the catch-all, line 1397), then try
`fill`, keyboard typing, `press_sequentially` in order; success as soon as
one technique completes. -/
def _smart_type (target _value selector_type : String) (target_y : Int) (page : TypePage) :
    Bool × String :=
  match smart_type_choice target selector_type target_y page with
  | some (c, _, i) =>
    if !c.click_ok then (false, "Typing error: " ++ pyTake c.click_err 100)
    else if c.fill_ok then (true, "Typed using strategy " ++ toString i)
    else if c.keyboard_ok then (true, "Typed using strategy " ++ toString i)
    else if c.seq_ok then (true, "Typed using strategy " ++ toString i)
    else (false, "All typing methods failed")
  | none => (false, "Could not find field: " ++ target)

/-- Soundness of one `scanY` entry: the stored candidate is visible, its
bounding-box Y exists, the stored distance is `|Y - targetY|`, and it is
under the stored strategy's threshold. -/
def scanInv (target_y : Int) : Option (TypeCand × Nat × Nat) → Prop
  | none => True
  | some (c, d, j) =>
      c.visible = true ∧ ∃ cy, c.bboxY = some cy ∧ d = (cy - target_y).natAbs
        ∧ d < typeMaxDistance j

theorem scanY_sound (target_y : Int) (i : Nat) :
    ∀ (cands : List TypeCand) (best : Option (TypeCand × Nat × Nat)),
      scanInv target_y best → scanInv target_y (scanY target_y i cands best) := by
  intro cands
  induction cands with
  | nil => intro best hb; simpa [scanY] using hb
  | cons c rest ih =>
    intro best hb
    simp only [scanY]
    by_cases hv : c.visible = true
    · rw [if_pos hv]
      cases hy : c.bboxY with
      | none => exact ih best hb
      | some y =>
        dsimp only
        by_cases hcond : (decide ((y - target_y).natAbs < typeMaxDistance i)
            && beatsBest (y - target_y).natAbs best) = true
        · rw [if_pos hcond]
          simp only [Bool.and_eq_true, decide_eq_true_eq] at hcond
          have hnew : scanInv target_y (some (c, (y - target_y).natAbs, i)) :=
            ⟨hv, y, hy, rfl, hcond.1⟩
          by_cases h20 : (y - target_y).natAbs < 20
          · rw [if_pos h20]; exact hnew
          · rw [if_neg h20]; exact ih _ hnew
        · rw [if_neg hcond]; exact ih best hb
    · rw [if_neg hv]; exact ih best hb

theorem typeLoopY_sound (page : TypePage) (target_y : Int) :
    ∀ (ss : List String) (i : Nat) (best : Option (TypeCand × Nat × Nat)),
      scanInv target_y best → scanInv target_y (typeLoopY page target_y i ss best) := by
  intro ss
  induction ss with
  | nil => intro i best hb; simpa [typeLoopY] using hb
  | cons s rest ih =>
    intro i best hb
    simp only [typeLoopY]
    by_cases hlen : (page.locatorMatches s).length > 0
    · rw [if_pos hlen]
      have hb' := scanY_sound target_y i ((page.locatorMatches s).take 5) best hb
      by_cases hstop : stopEarlyY (scanY target_y i ((page.locatorMatches s).take 5) best) = true
      · rw [if_pos hstop]; exact hb'
      · rw [if_neg hstop]; exact ih (i + 1) _ hb'
    · rw [if_neg hlen]; exact ih (i + 1) best hb

/-- Soundness of the selection when a target Y is supplied: the candidate
acted on lies within the winning strategy's distance threshold. -/
theorem smart_type_choice_sound (target selector_type : String) (target_y : Int)
    (page : TypePage) (c : TypeCand) (d i : Nat)
    (hy : target_y > 0)
    (h : smart_type_choice target selector_type target_y page = some (c, some d, i)) :
    c.visible = true ∧ ∃ cy, c.bboxY = some cy ∧ d = (cy - target_y).natAbs
      ∧ d < typeMaxDistance i := by
  unfold smart_type_choice at h
  rw [if_pos hy] at h
  cases hres : typeLoopY page target_y 1 (type_strategies target selector_type target_y) none with
  | none => rw [hres] at h; simp at h
  | some r =>
    rw [hres] at h
    obtain ⟨c0, d0, i0⟩ := r
    simp only [Option.some.injEq, Prod.mk.injEq] at h
    obtain ⟨hc, hd, hi⟩ := h
    have hs := typeLoopY_sound page target_y
      (type_strategies target selector_type target_y) 1 none trivial
    rw [hres] at hs
    subst hc
    cases hd
    subst hi
    exact hs

/-! ## Claims C2, C3, C6 -/

/-- A button whose visible text contains both words of "create repository"
but not the phrase itself. -/
def c2Button : ClickCand :=
  { visible := true, disabled := false, text_content := some "Repository create",
    click_ok := true }

/-- A page where every selector strategy comes up empty and the only button
is `c2Button`. -/
def c2Page : ClickPage :=
  { firstCand := fun _ => none, allButtons := [c2Button] }

/-- C2 counterexample: target "create repository" is classified final-submit
and has two words, yet the last-resort scan clicks a button whose visible
text "Repository create" does not contain the full target phrase — the scan
only requires both words, unordered. -/
theorem c2_counterexample_last_resort :
    is_final_submit_target "create repository" = true
    ∧ pyContainsChar "create repository" ' ' = true
    ∧ _smart_click "create repository" "text" c2Page
        = (true, "Clicked using last resort method")
    ∧ strContains (pyLower "Repository create") (pyLower "create repository") = false := by
  exact ⟨by decide, by decide, rfl, by decide⟩

/-- C2 (amended): for a multi-word final-submit target, the strategy loop
rejects any candidate whose non-empty visible text does not contain the full
target phrase (a candidate with `None`/empty text bypasses the check); the
last-resort scan, by contrast, only requires the target to split into exactly
two words and each word to occur somewhere in the candidate's text,
unordered. -/
theorem c2_final_submit_text_guard (target selector_type : String) (page : ClickPage)
    (res : Option Nat × ClickCand)
    (hfin : is_final_submit_target target = true)
    (hsp : pyContainsChar target ' ' = true)
    (h : smart_click_choice target selector_type page = some res) :
    (∀ i, res.1 = some i → ∀ t, res.2.text_content = some t → t.isEmpty = false →
        strContains (pyLower t) (pyLower target) = true)
    ∧ (res.1 = none →
        (splitWs target).length = 2
        ∧ pyTruthy res.2.text_content = true
        ∧ (splitWs target).all
            (fun w => strContains (pyLower (res.2.text_content.getD "")) (pyLower w)) = true) := by
  unfold smart_click_choice at h
  cases hl : clickLoop (is_intermediate_target target) (is_final_submit_target target)
      target page 1 (click_strategies target selector_type) with
  | some r =>
    rw [hl] at h
    obtain ⟨j, c⟩ := r
    injection h with h'
    subst h'
    have hs := clickLoop_sound (is_intermediate_target target) (is_final_submit_target target)
      target page (click_strategies target selector_type) 1 j c hl
    constructor
    · intro i hi t ht hne
      have hskip := hs.2.2.2.1
      unfold clickFinalSkip at hskip
      rw [hfin, hsp, ht] at hskip
      simp only [Bool.true_and, Bool.and_eq_false_iff, Bool.not_eq_true'] at hskip
      rcases hskip with h1 | h1
      · rw [hne] at h1; exact absurd h1 (by simp)
      · simpa using h1
    · intro hnone; exact absurd hnone (by simp)
  | none =>
    rw [hl, hfin, hsp] at h
    simp only [Bool.and_self, if_true] at h
    by_cases h2 : (splitWs target).length = 2
    · rw [if_pos h2] at h
      cases hscan : lastResortScan (splitWs target) page.allButtons with
      | none => rw [hscan] at h; exact absurd h (by simp)
      | some c =>
        rw [hscan] at h
        injection h with h'
        subst h'
        have hs := lastResortScan_sound (splitWs target) page.allButtons c hscan
        constructor
        · intro i hi; exact absurd hi (by simp)
        · intro _; exact ⟨h2, hs.1, hs.2.1⟩
    · rw [if_neg h2] at h; exact absurd h (by simp)

/-- C2 witness: the amended guarantees discharged on the concrete last-resort
page. -/
theorem c2_final_submit_text_guard_witness :
    (∀ i, ((none, c2Button) : Option Nat × ClickCand).1 = some i →
        ∀ t, ((none, c2Button) : Option Nat × ClickCand).2.text_content = some t →
        t.isEmpty = false →
        strContains (pyLower t) (pyLower "create repository") = true)
    ∧ (((none, c2Button) : Option Nat × ClickCand).1 = none →
        (splitWs "create repository").length = 2
        ∧ pyTruthy ((none, c2Button) : Option Nat × ClickCand).2.text_content = true
        ∧ (splitWs "create repository").all
            (fun w => strContains
              (pyLower (((none, c2Button) : Option Nat × ClickCand).2.text_content.getD ""))
              (pyLower w)) = true) :=
  c2_final_submit_text_guard "create repository" "text" c2Page (none, c2Button)
    (by decide) (by decide) rfl

/-- A visible but disabled input field whose keyboard technique "succeeds". -/
def c3Cand : TypeCand :=
  { visible := true, bboxY := some 100, disabled := true, click_ok := true,
    click_err := "", fill_ok := false, keyboard_ok := true, seq_ok := false }

/-- A page whose only match, for the first id strategy, is the disabled
field. -/
def c3Page : TypePage :=
  ⟨fun s => if s = "#reponame" then [c3Cand] else []⟩

/-- C3 counterexample: `_smart_type` performs no disabled check — it selects
a visible but disabled candidate and reports success as soon as one input
technique completes, so the text-entry resolver can return success having
acted on a disabled candidate. -/
theorem c3_counterexample_type_disabled :
    smart_type_choice "reponame" "placeholder" 0 c3Page = some (c3Cand, none, 1)
    ∧ c3Cand.disabled = true
    ∧ _smart_type "reponame" "v" "placeholder" 0 c3Page = (true, "Typed using strategy 1") :=
  ⟨rfl, rfl, rfl⟩

/-- C3 (amended): the click resolver never acts on a disabled candidate —
every candidate `_smart_click` accepts, whether from the strategy loop or
from the last-resort scan, has the disabled check false. (The text-entry
resolver `_smart_type` performs no such check, see the counterexample.) -/
theorem c3_click_resolver_never_disabled (target selector_type : String) (page : ClickPage)
    (res : Option Nat × ClickCand)
    (h : smart_click_choice target selector_type page = some res) :
    res.2.disabled = false := by
  unfold smart_click_choice at h
  cases hl : clickLoop (is_intermediate_target target) (is_final_submit_target target)
      target page 1 (click_strategies target selector_type) with
  | some r =>
    rw [hl] at h
    obtain ⟨j, c⟩ := r
    injection h with h'
    subst h'
    exact (clickLoop_sound _ _ _ _ _ 1 j c hl).2.1
  | none =>
    rw [hl] at h
    by_cases hfin : (is_final_submit_target target && pyContainsChar target ' ') = true
    · rw [if_pos hfin] at h
      by_cases h2 : (splitWs target).length = 2
      · rw [if_pos h2] at h
        cases hscan : lastResortScan (splitWs target) page.allButtons with
        | none => rw [hscan] at h; exact absurd h (by simp)
        | some c =>
          rw [hscan] at h
          injection h with h'
          subst h'
          exact (lastResortScan_sound _ _ c hscan).2.2.1
      · rw [if_neg h2] at h; exact absurd h (by simp)
    · rw [if_neg hfin] at h; exact absurd h (by simp)

/-- An enabled, visible candidate for the C3 witness. -/
def c3ClickCand : ClickCand :=
  { visible := true, disabled := false, text_content := some "OK", click_ok := true }

/-- A page where the first exact-text strategy finds `c3ClickCand`. -/
def c3ClickPage : ClickPage :=
  { firstCand := fun s => if s = "text=/^ok$/i" then some c3ClickCand else none,
    allButtons := [] }

/-- C3 witness: the never-disabled guarantee discharged on a concrete page. -/
theorem c3_click_resolver_never_disabled_witness :
    ((some 1 : Option Nat), c3ClickCand).2.disabled = false :=
  c3_click_resolver_never_disabled "ok" "text" c3ClickPage (some 1, c3ClickCand) rfl

/-- Candidate at Y=119 (distance 19 from target Y=100). -/
def c6CandFar : TypeCand :=
  { visible := true, bboxY := some 119, disabled := false, click_ok := true,
    click_err := "", fill_ok := true, keyboard_ok := true, seq_ok := true }

/-- Candidate at Y=103 (distance 3 from target Y=100). -/
def c6CandNear : TypeCand :=
  { visible := true, bboxY := some 103, disabled := false, click_ok := true,
    click_err := "", fill_ok := true, keyboard_ok := true, seq_ok := true }

/-- A page where one strategy matches both candidates, farther one first. -/
def c6Page : TypePage :=
  ⟨fun s => if s = "#reponame" then [c6CandFar, c6CandNear] else []⟩

/-- C6 counterexample: with candidates at distances 19 and 3 under the same
strategy, the resolver selects the distance-19 candidate — a distance under
20 short-circuits the scan before the closer candidate is examined, so it
does not select the candidate with the smallest distance under the
threshold. -/
theorem c6_counterexample_short_circuit :
    smart_type_choice "reponame" "placeholder" 100 c6Page = some (c6CandFar, some 19, 1)
    ∧ c6Page.locatorMatches "#reponame" = [c6CandFar, c6CandNear]
    ∧ ((119 : Int) - 100).natAbs = 19
    ∧ ((103 : Int) - 100).natAbs = 3
    ∧ (3 : Nat) < 19 :=
  ⟨rfl, rfl, rfl, rfl, by decide⟩

/-- The identical upper field at Y=100 of the spec's scenario. -/
def c6FieldTop : TypeCand :=
  { visible := true, bboxY := some 100, disabled := false, click_ok := true,
    click_err := "", fill_ok := true, keyboard_ok := true, seq_ok := true }

/-- The identical lower field at Y=500 of the spec's scenario. -/
def c6FieldBottom : TypeCand :=
  { visible := true, bboxY := some 500, disabled := false, click_ok := true,
    click_err := "", fill_ok := true, keyboard_ok := true, seq_ok := true }

/-- A page with the two structurally identical fields under one name
strategy. -/
def c6ScenarioPage : TypePage :=
  ⟨fun s => if s = "[name='name']" then [c6FieldTop, c6FieldBottom] else []⟩

/-- C6 (amended): when a target Y is supplied the resolver scans up to 5
matches per strategy and only ever acts on a candidate whose distance
`|elementY − targetY|` is under the strategy's threshold (80px for
strategies 1-6, 150px later), preferring smaller distances except that a
distance under 20px is accepted immediately; in particular, with identical
fields at Y=100 and Y=500 and targetY=510, the Y=500 field is resolved. -/
theorem c6_position_threshold_and_scenario (target selector_type : String) (target_y : Int)
    (page : TypePage) (c : TypeCand) (d i : Nat)
    (hy : target_y > 0)
    (h : smart_type_choice target selector_type target_y page = some (c, some d, i)) :
    (c.visible = true ∧ ∃ cy, c.bboxY = some cy ∧ d = (cy - target_y).natAbs
        ∧ d < typeMaxDistance i)
    ∧ smart_type_choice "name" "placeholder" 510 c6ScenarioPage
        = some (c6FieldBottom, some 10, 1)
    ∧ _smart_type "name" "Roadmap Q1" "placeholder" 510 c6ScenarioPage
        = (true, "Typed using strategy 1") :=
  ⟨smart_type_choice_sound target selector_type target_y page c d i hy h, rfl, rfl⟩

/-- C6 witness: the amended statement discharged on the scenario page
itself. -/
theorem c6_position_threshold_witness :
    (c6FieldBottom.visible = true ∧ ∃ cy, c6FieldBottom.bboxY = some cy
        ∧ 10 = (cy - 510).natAbs ∧ 10 < typeMaxDistance 1)
    ∧ smart_type_choice "name" "placeholder" 510 c6ScenarioPage
        = some (c6FieldBottom, some 10, 1)
    ∧ _smart_type "name" "Roadmap Q1" "placeholder" 510 c6ScenarioPage
        = (true, "Typed using strategy 1") :=
  c6_position_threshold_and_scenario "name" "placeholder" 510 c6ScenarioPage
    c6FieldBottom 10 1 (by decide) rfl

/-! ## Action executor: `execute_action` (multi_agent.py lines 919-1013)

The delegated operations — the two resolvers, the contenteditable writer and
the browser driver's key press / wait primitives — are oracles in the
`Except` monad: `Except.error e` models a raised exception with text
`str(e)`. `execute_action_try` is the body of the executor's `try:` block
(exceptions propagate); `execute_action` is the whole function, whose
`except` clause converts any escaped exception into a failure pair. A dict
key absent from the plan is modelled as `none`; each use site applies the
same default as the corresponding Python `.get` call (so Python's
`get('value', 'Enter')` for a plan without the key is `getD "Enter"`). -/

/-- An ActionPlan as the planner produces it (`action` itself is always
present: `analyze_and_plan` inserts `'wait'` otherwise). -/
structure ActionPlan where
  action : String
  reasoning : Option String
  target : Option String
  selector_type : Option String
  value : Option String
  field_purpose : Option String
  target_y_position : Option Int
  wait_after : Option Nat
  is_complete : Option Bool
  confidence : Option ℚ

/-- Oracles for the operations `execute_action` delegates. -/
structure ExecEnv where
  press_key_res : String → Except String Unit
  click_res : String → String → Except String (Bool × String)
  type_res : String → String → String → Int → Except String (Bool × String)
  contenteditable_res : String → String → Int → Except String (Bool × String)
  wait_res : Nat → Except String Unit

/-- Creation-intent words that trigger a tracker reset after a successful
click (line 946). -/
def trackerResetWords : List String :=
  ["create", "new", "add", "repository", "project", "issue"]

/-- A delegated resolver call: on a raised exception the error propagates; on
a returned pair the tracker becomes `onSuccess` exactly when the call
reported success. -/
def execDelegate (t : FormFieldTracker) (r : Except String (Bool × String))
    (onSuccess : FormFieldTracker) : Except String (FormFieldTracker × (Bool × String)) :=
  match r with
  | .ok (success, msg) => .ok (if success then onSuccess else t, (success, msg))
  | .error e => .error e

/-- Body of `execute_action`'s `try:` block (lines 924-1008). -/
def execute_action_try (env : ExecEnv) (t : FormFieldTracker) (p : ActionPlan) :
    Except String (FormFieldTracker × (Bool × String)) :=
  if p.action = "complete" then
    .ok (t, (true, "Task marked as complete"))
  else if p.action = "press_key" then
    match env.press_key_res (if !(pyTrim (p.target.getD "")).isEmpty
        then pyTrim (p.target.getD "") else p.value.getD "Enter") with
    | .ok _ => .ok (t, (true, "Pressed key: "
        ++ (if !(pyTrim (p.target.getD "")).isEmpty
            then pyTrim (p.target.getD "") else p.value.getD "Enter")))
    | .error e => .ok (t, (false, "Key press error: " ++ e))
  else if p.action = "click" ∨ p.action = "navigate" then
    execDelegate t (env.click_res (pyTrim (p.target.getD "")) (p.selector_type.getD "text"))
      (if trackerResetWords.any
          (fun w => strContains (pyLower (pyTrim (p.target.getD ""))) w) then
        t.reset else t)
  else if p.action = "type_contenteditable" then
    if t.is_filled (pyTrim (p.target.getD "")) (p.field_purpose.getD "other")
        (p.target_y_position.getD 0) then
      .ok (t, (true, "Skipped (already filled)"))
    else if 2 ≤ t.get_attempts (pyTrim (p.target.getD "")) (p.field_purpose.getD "other")
        (p.target_y_position.getD 0) then
      .ok (t, (true, "Skipped (too many attempts)"))
    else
      execDelegate t
        (env.contenteditable_res (pyTrim (p.target.getD "")) (p.value.getD "")
          (p.target_y_position.getD 0))
        (if p.field_purpose.getD "other" = "title" ∨ p.field_purpose.getD "other" = "body"
            ∨ p.field_purpose.getD "other" = "content" then
          { t.mark_filled (pyTrim (p.target.getD "")) (p.field_purpose.getD "other")
              (p.value.getD "") (p.target_y_position.getD 0) with content_created := true }
        else
          t.mark_filled (pyTrim (p.target.getD "")) (p.field_purpose.getD "other")
            (p.value.getD "") (p.target_y_position.getD 0))
  else if p.action = "type" then
    if t.is_filled (pyTrim (p.target.getD "")) (p.field_purpose.getD "other")
        (p.target_y_position.getD 0) then
      .ok (t, (true, "Skipped (already filled)"))
    else if 2 ≤ t.get_attempts (pyTrim (p.target.getD "")) (p.field_purpose.getD "other")
        (p.target_y_position.getD 0) then
      .ok (t, (true, "Skipped (too many attempts)"))
    else
      execDelegate t
        (env.type_res (pyTrim (p.target.getD "")) (p.value.getD "")
          (p.selector_type.getD "placeholder") (p.target_y_position.getD 0))
        (t.mark_filled (pyTrim (p.target.getD "")) (p.field_purpose.getD "other")
          (p.value.getD "") (p.target_y_position.getD 0))
  else if p.action = "wait" then
    match env.wait_res (p.wait_after.getD 2000) with
    | .ok _ => .ok (t, (true, "Waited " ++ toString (p.wait_after.getD 2000) ++ "ms"))
    | .error e => .error e
  else .ok (t, (false, "Unknown action: " ++ p.action))

/-- `execute_action`: the `except` clause (lines 1010-1013) converts any
exception that escaped the body into `(False, f"Error: {str(e)}")`; no
tracker mutation precedes a raising delegate in any branch, so the tracker
is unchanged in that case. -/
def execute_action (env : ExecEnv) (t : FormFieldTracker) (p : ActionPlan) :
    FormFieldTracker × (Bool × String) :=
  match execute_action_try env t p with
  | .ok r => r
  | .error e => (t, (false, "Error: " ++ e))

/-- C8: `execute_action` always returns a `(success, message)` pair, and any
exception raised by a delegated resolver or driver operation (any
`Except.error` escaping the `try:` body) is converted into a failure result
carrying the exception text — never propagated upward. -/
theorem c8_executor_catches_exceptions (env : ExecEnv) (t : FormFieldTracker) (p : ActionPlan) :
    (∃ t' success msg, execute_action env t p = (t', (success, msg)))
    ∧ (∀ e, execute_action_try env t p = Except.error e →
        execute_action env t p = (t, (false, "Error: " ++ e))) := by
  constructor
  · exact ⟨(execute_action env t p).1, (execute_action env t p).2.1,
      (execute_action env t p).2.2, rfl⟩
  · intro e h
    unfold execute_action
    rw [h]

/-- An environment whose click resolver raises. -/
def c8Env : ExecEnv :=
  { press_key_res := fun _ => .ok ()
    click_res := fun _ _ => .error "boom"
    type_res := fun _ _ _ _ => .ok (true, "Typed using strategy 1")
    contenteditable_res := fun _ _ _ => .ok (true, "ok")
    wait_res := fun _ => .ok () }

/-- A click plan delegated to the raising resolver. -/
def c8Plan : ActionPlan :=
  { action := "click", reasoning := none, target := some "Create repository",
    selector_type := some "text", value := none, field_purpose := none,
    target_y_position := none, wait_after := none, is_complete := none,
    confidence := none }

/-- C8 witness: the raised exception surfaces as a failure pair with the
exception text. -/
theorem c8_executor_catches_exceptions_witness :
    execute_action c8Env FormFieldTracker.init c8Plan
      = (FormFieldTracker.init, (false, "Error: " ++ "boom")) :=
  (c8_executor_catches_exceptions c8Env FormFieldTracker.init c8Plan).2 "boom" rfl

/-! ## Claim C10: the attempt count never exceeds 1 between resets -/

/-- Invariant: every attempt count is at most 1, and a key with a positive
attempt count is recorded as filled. -/
def AttemptsInv (t : FormFieldTracker) : Prop :=
  ∀ k, t.field_attempts k ≤ 1 ∧ (1 ≤ t.field_attempts k → (t.filled_fields k).isSome = true)

theorem attemptsInv_init : AttemptsInv FormFieldTracker.init := by
  intro k
  simp [FormFieldTracker.init]

theorem attemptsInv_mark (t : FormFieldTracker) (fid purpose value : String) (y : Int)
    (ht : AttemptsInv t) (hnf : t.is_filled fid purpose y = false) :
    AttemptsInv (t.mark_filled fid purpose value y) := by
  intro k
  have hkey := ht (create_field_key fid purpose y)
  have h0 : t.field_attempts (create_field_key fid purpose y) = 0 := by
    by_contra hne
    have h1 : 1 ≤ t.field_attempts (create_field_key fid purpose y) := by omega
    have h2 := hkey.2 h1
    unfold FormFieldTracker.is_filled at hnf
    rw [h2] at hnf
    exact absurd hnf (by simp)
  refine ⟨?_, ?_⟩
  · show (if k = create_field_key fid purpose y
        then t.field_attempts (create_field_key fid purpose y) + 1
        else t.field_attempts k) ≤ 1
    by_cases h : k = create_field_key fid purpose y
    · rw [if_pos h, h0]
    · rw [if_neg h]; exact (ht k).1
  · show 1 ≤ (if k = create_field_key fid purpose y
        then t.field_attempts (create_field_key fid purpose y) + 1
        else t.field_attempts k) →
      (if k = create_field_key fid purpose y
        then some value else t.filled_fields k).isSome = true
    by_cases h : k = create_field_key fid purpose y
    · rw [if_pos h, if_pos h]; intro _; rfl
    · rw [if_neg h, if_neg h]; exact (ht k).2

/-- Setting a phase flag leaves the maps untouched. -/
theorem attemptsInv_set_content (t : FormFieldTracker)
    (ht : AttemptsInv t) : AttemptsInv { t with content_created := true } := ht

theorem execDelegate_tracker (t : FormFieldTracker) (r : Except String (Bool × String))
    (onS : FormFieldTracker) (rr : FormFieldTracker × (Bool × String))
    (h : execDelegate t r onS = .ok rr) : rr.1 = t ∨ rr.1 = onS := by
  unfold execDelegate at h
  cases r with
  | error e => exact absurd h (by simp)
  | ok pr =>
    obtain ⟨success, msg⟩ := pr
    simp only [Except.ok.injEq] at h
    subst h
    cases success
    · left; rfl
    · right; rfl

/-- The tracker after one `execute_action` is the old tracker, the reset
tracker, or a `mark_filled` (possibly with the content flag raised) on a key
that was not yet filled. -/
theorem execute_action_tracker_shape (env : ExecEnv) (t : FormFieldTracker) (p : ActionPlan) :
    (execute_action env t p).1 = t
    ∨ (execute_action env t p).1 = FormFieldTracker.init
    ∨ ∃ fid purpose value y,
        t.is_filled fid purpose y = false
        ∧ ((execute_action env t p).1 = t.mark_filled fid purpose value y
          ∨ (execute_action env t p).1
              = { t.mark_filled fid purpose value y with content_created := true }) := by
  unfold execute_action
  cases htry : execute_action_try env t p with
  | error e => simp
  | ok r =>
    dsimp only
    unfold execute_action_try at htry
    by_cases h1 : p.action = "complete"
    · rw [if_pos h1] at htry; left; injection htry with h'; rw [← h']
    · rw [if_neg h1] at htry
      by_cases h2 : p.action = "press_key"
      · rw [if_pos h2] at htry
        cases hpk : env.press_key_res (if !(pyTrim (p.target.getD "")).isEmpty
            then pyTrim (p.target.getD "") else p.value.getD "Enter") with
        | ok u => rw [hpk] at htry; left; injection htry with h'; rw [← h']
        | error e => rw [hpk] at htry; left; injection htry with h'; rw [← h']
      · rw [if_neg h2] at htry
        by_cases h3 : p.action = "click" ∨ p.action = "navigate"
        · rw [if_pos h3] at htry
          rcases execDelegate_tracker _ _ _ _ htry with h' | h'
          · left; exact h'
          · by_cases hkw : (trackerResetWords.any
                (fun w => strContains (pyLower (pyTrim (p.target.getD ""))) w)) = true
            · rw [if_pos hkw] at h'; right; left; rw [h']; rfl
            · rw [if_neg hkw] at h'; left; exact h'
        · rw [if_neg h3] at htry
          by_cases h4 : p.action = "type_contenteditable"
          · rw [if_pos h4] at htry
            by_cases h5 : t.is_filled (pyTrim (p.target.getD ""))
                (p.field_purpose.getD "other") (p.target_y_position.getD 0) = true
            · rw [if_pos h5] at htry; left; injection htry with h'; rw [← h']
            · rw [if_neg h5] at htry
              by_cases h6 : 2 ≤ t.get_attempts (pyTrim (p.target.getD ""))
                  (p.field_purpose.getD "other") (p.target_y_position.getD 0)
              · rw [if_pos h6] at htry; left; injection htry with h'; rw [← h']
              · rw [if_neg h6] at htry
                rcases execDelegate_tracker _ _ _ _ htry with h' | h'
                · left; exact h'
                · right; right
                  refine ⟨pyTrim (p.target.getD ""), p.field_purpose.getD "other",
                    p.value.getD "", p.target_y_position.getD 0,
                    by simpa using h5, ?_⟩
                  by_cases h7 : p.field_purpose.getD "other" = "title"
                      ∨ p.field_purpose.getD "other" = "body"
                      ∨ p.field_purpose.getD "other" = "content"
                  · rw [if_pos h7] at h'; right; exact h'
                  · rw [if_neg h7] at h'; left; exact h'
          · rw [if_neg h4] at htry
            by_cases h8 : p.action = "type"
            · rw [if_pos h8] at htry
              by_cases h9 : t.is_filled (pyTrim (p.target.getD ""))
                  (p.field_purpose.getD "other") (p.target_y_position.getD 0) = true
              · rw [if_pos h9] at htry; left; injection htry with h'; rw [← h']
              · rw [if_neg h9] at htry
                by_cases h10 : 2 ≤ t.get_attempts (pyTrim (p.target.getD ""))
                    (p.field_purpose.getD "other") (p.target_y_position.getD 0)
                · rw [if_pos h10] at htry; left; injection htry with h'; rw [← h']
                · rw [if_neg h10] at htry
                  rcases execDelegate_tracker _ _ _ _ htry with h' | h'
                  · left; exact h'
                  · right; right
                    exact ⟨pyTrim (p.target.getD ""), p.field_purpose.getD "other",
                      p.value.getD "", p.target_y_position.getD 0,
                      by simpa using h9, Or.inl h'⟩
            · rw [if_neg h8] at htry
              by_cases h11 : p.action = "wait"
              · rw [if_pos h11] at htry
                cases hw : env.wait_res (p.wait_after.getD 2000) with
                | ok u => rw [hw] at htry; left; injection htry with h'; rw [← h']
                | error e => rw [hw] at htry; exact absurd htry (by simp)
              · rw [if_neg h11] at htry; left; injection htry with h'; rw [← h']

/-- One executor step preserves the attempt-count invariant. -/
theorem execute_action_preserves_inv (env : ExecEnv) (t : FormFieldTracker) (p : ActionPlan)
    (ht : AttemptsInv t) : AttemptsInv (execute_action env t p).1 := by
  rcases execute_action_tracker_shape env t p with h | h | ⟨fid, purpose, value, y, hnf, h | h⟩
  · rw [h]; exact ht
  · rw [h]; exact attemptsInv_init
  · rw [h]; exact attemptsInv_mark t fid purpose value y ht hnf
  · rw [h]; exact attemptsInv_set_content _ (attemptsInv_mark t fid purpose value y ht hnf)

/-- The tracker state after a sequence of executor steps, from the freshly
constructed tracker (`mark_filled` is called nowhere else in the program). -/
def runExecSeq (steps : List (ExecEnv × ActionPlan)) : FormFieldTracker :=
  steps.foldl (fun t ep => (execute_action ep.1 t ep.2).1) FormFieldTracker.init

theorem runExecSeq_inv (steps : List (ExecEnv × ActionPlan)) :
    AttemptsInv (runExecSeq steps) := by
  unfold runExecSeq
  have hgen : ∀ (ss : List (ExecEnv × ActionPlan)) (t : FormFieldTracker),
      AttemptsInv t →
      AttemptsInv (ss.foldl (fun t ep => (execute_action ep.1 t ep.2).1) t) := by
    intro ss
    induction ss with
    | nil => intro t ht; exact ht
    | cons ep rest ih =>
      intro t ht
      exact ih _ (execute_action_preserves_inv ep.1 t ep.2 ht)
  exact hgen steps FormFieldTracker.init attemptsInv_init

/-- C10: across any sequence of executor steps the attempt count stored for
any field key never exceeds 1, and a key not recorded as filled has attempt
count 0 — so the type paths' `attempts >= 2 → skip` guard, which is only
consulted after `is_filled` returned false, can never fire. -/
theorem c10_attempt_count_bounded (steps : List (ExecEnv × ActionPlan)) :
    (∀ k, (runExecSeq steps).field_attempts k ≤ 1)
    ∧ (∀ fid purpose y, (runExecSeq steps).is_filled fid purpose y = false →
        (runExecSeq steps).get_attempts fid purpose y = 0) := by
  have hInv := runExecSeq_inv steps
  constructor
  · intro k; exact (hInv k).1
  · intro fid purpose y h
    have hk := hInv (create_field_key fid purpose y)
    unfold FormFieldTracker.is_filled at h
    unfold FormFieldTracker.get_attempts
    by_contra hne
    have h1 : 1 ≤ (runExecSeq steps).field_attempts (create_field_key fid purpose y) := by
      omega
    rw [hk.2 h1] at h
    exact absurd h (by simp)

/-- C10 witness: the unreachability clause discharged at a concrete key on
the empty run. -/
theorem c10_attempt_count_bounded_witness :
    (runExecSeq []).get_attempts "name" "title" 120 = 0 :=
  (c10_attempt_count_bounded []).2 "name" "title" 120 (by decide)

/-! ## Task orchestrator: `execute_task` (multi_agent.py lines 1404-1578)

Per step the loop consumes external data — a screenshot path, the page URL,
a timestamp, the planner's ActionPlan, the executor's result pair, and the
verdict of the created-entity URL check (lines 1470-1479, a pattern match on
the live URL against the task's entity) — all supplied by a per-step
`StepEnv` oracle. The Python float threshold `0.7` is the exact rational
7/10 (written in normal form so that comparisons reduce). -/

/-- The Python literal `0.7` of line 1560. -/
def confidenceThreshold : ℚ := ⟨7, 10, by norm_num, by norm_num⟩

theorem confidenceThreshold_eq_seven_tenths : confidenceThreshold = 7 / 10 := by
  norm_num [confidenceThreshold, Rat.mk'_eq_divInt, Rat.divInt_eq_div]

/-- UIState record (lines 18-27; `dom_snapshot` stays `None` in the loop). -/
structure UIStateRec where
  step_number : Nat
  description : String
  screenshot_path : String
  url : String
  timestamp : String
  actions_taken : List String

/-- The workflow under construction plus the loop-local variables of
`execute_task`. -/
structure LoopState where
  states : List UIStateRec
  total_steps : Nat
  completion_status : String
  actions_taken : List String
  consecutive_failures : Nat
  same_action_count : Nat
  last_action_signature : String
  creation_completed : Bool

/-- Loop state at entry (lines 1429-1443). -/
def initLoopState : LoopState :=
  { states := [], total_steps := 0, completion_status := "in_progress",
    actions_taken := [], consecutive_failures := 0, same_action_count := 0,
    last_action_signature := "", creation_completed := false }

/-- Everything external one loop iteration consumes. -/
structure StepEnv where
  screenshot_path : String
  url : String
  timestamp : String
  urlIndicatesSuccess : Bool
  plan : ActionPlan
  execResult : Bool × String

/-- The repetition-guard signature (line 1507):
`f"{action}|{target}|{value}"`. -/
def action_signature (p : ActionPlan) : String :=
  p.action ++ "|" ++ p.target.getD "" ++ "|" ++ p.value.getD ""

/-- Final-submit phrases of the orchestrator's creation latch (line 1536) —
a different list from the resolver's. -/
def orchestratorFinalPhrases : List String :=
  ["create repository", "create project", "create issue",
   "submit new issue", "create pull request", "publish"]

/-- Line 1535-1538: the executed plan's target read as a final submit. -/
def isOrchFinalSubmit (p : ActionPlan) : Bool :=
  orchestratorFinalPhrases.any (fun ph => strContains (pyLower (p.target.getD "")) ph)

/-- The action summary appended to the history (lines 1544-1548). -/
def actionSummary (step : Nat) (p : ActionPlan) (success : Bool) : String :=
  "Step " ++ toString step ++ ": " ++ p.action
    ++ (if !(p.target.getD "").isEmpty then " - " ++ pyTake (p.target.getD "") 50 else "")
    ++ " -> " ++ (if success then "✓" else "✗")

/-- Bookkeeping of one executed step (lines 1522-1558): append the UIState
record (with the pre-step action history), execute, set the creation latch
on a successful final-submit target, append the action summary, and reset or
bump the consecutive-failure counter. -/
def stepBookkeeping (e : StepEnv) (step : Nat) (st : LoopState) : LoopState :=
  { st with
    states := st.states ++
      [⟨step, e.plan.reasoning.getD "Unknown", e.screenshot_path, e.url,
        e.timestamp, st.actions_taken⟩],
    creation_completed := st.creation_completed
      || (e.execResult.1 && isOrchFinalSubmit e.plan),
    actions_taken := st.actions_taken ++ [actionSummary step e.plan e.execResult.1],
    consecutive_failures := if e.execResult.1 then 0 else st.consecutive_failures + 1 }

/-- The tail of one iteration, after the repetition guard admitted the plan
(lines 1522-1572): record and execute, then the self-reported-completion
check (line 1560) and the failure-budget check (line 1568), in that order. -/
def execStepAfterGuard (e : StepEnv) (step : Nat) (st : LoopState) : Bool × LoopState :=
  if e.plan.is_complete.getD false && decide (e.plan.confidence.getD 0 > confidenceThreshold)
  then
    (true, { stepBookkeeping e step st with
      completion_status := "completed", total_steps := step })
  else if (stepBookkeeping e step st).consecutive_failures ≥ 4 then
    (true, { stepBookkeeping e step st with
      completion_status := "failed_too_many_errors", total_steps := step })
  else (false, stepBookkeeping e step st)

/-- One iteration of the step loop (lines 1445-1572): the early
created-entity URL check (lines 1461-1491), then the repetition guard
(lines 1507-1520), then the executed tail. The first component is true when
the iteration broke out of the loop. -/
def execStep (e : StepEnv) (step : Nat) (st : LoopState) : Bool × LoopState :=
  if st.creation_completed && e.urlIndicatesSuccess then
    (true, { st with completion_status := "completed", total_steps := step })
  else if action_signature e.plan = st.last_action_signature
      ∧ st.same_action_count + 1 ≥ 3 then
    (true,
      { st with
        same_action_count := st.same_action_count + 1,
        completion_status := "failed_infinite_loop", total_steps := step })
  else
    execStepAfterGuard e step
      { st with
        same_action_count :=
          if action_signature e.plan = st.last_action_signature
          then st.same_action_count + 1 else 0,
        last_action_signature := action_signature e.plan }

/-- The loop `for step in range(1, max_steps + 1)` with early exit. -/
def runSteps (env : Nat → StepEnv) : Nat → Nat → LoopState → LoopState
  | _, 0, st => st
  | step, r + 1, st =>
    match execStep (env step) step st with
    | (true, st') => st'
    | (false, st') => runSteps env (step + 1) r st'

/-- `execute_task` (lines 1404-1578): run the loop; if no terminal transition
fired, the status becomes `max_steps_reached` with `total_steps = max_steps`
(lines 1574-1576). -/
def execute_task (env : Nat → StepEnv) (max_steps : Nat) : LoopState :=
  if (runSteps env 1 max_steps initLoopState).completion_status = "in_progress" then
    { runSteps env 1 max_steps initLoopState with
      completion_status := "max_steps_reached", total_steps := max_steps }
  else runSteps env 1 max_steps initLoopState

/-! ## Characterization lemmas for the step loop -/

theorem execStepAfterGuard_char (e : StepEnv) (step : Nat) (st : LoopState)
    (hst : st.completion_status = "in_progress") :
    ((execStepAfterGuard e step st).1 = false →
        (execStepAfterGuard e step st).2.states.length = st.states.length + 1
        ∧ (execStepAfterGuard e step st).2.completion_status = "in_progress")
    ∧ ((execStepAfterGuard e step st).1 = true →
        ((execStepAfterGuard e step st).2.completion_status = "completed"
            ∧ (execStepAfterGuard e step st).2.total_steps = step
            ∧ (execStepAfterGuard e step st).2.states.length = st.states.length + 1)
        ∨ ((execStepAfterGuard e step st).2.completion_status = "failed_too_many_errors"
            ∧ (execStepAfterGuard e step st).2.total_steps = step
            ∧ (execStepAfterGuard e step st).2.states.length = st.states.length + 1)) := by
  unfold execStepAfterGuard
  by_cases h3 : (e.plan.is_complete.getD false
      && decide (e.plan.confidence.getD 0 > confidenceThreshold)) = true
  · rw [if_pos h3]
    constructor
    · intro h; exact absurd h (by simp)
    · intro _; left
      exact ⟨rfl, rfl, by simp [stepBookkeeping]⟩
  · rw [if_neg h3]
    by_cases h4 : (stepBookkeeping e step st).consecutive_failures ≥ 4
    · rw [if_pos h4]
      constructor
      · intro h; exact absurd h (by simp)
      · intro _; right
        exact ⟨rfl, rfl, by simp [stepBookkeeping]⟩
    · rw [if_neg h4]
      constructor
      · intro _
        exact ⟨by simp [stepBookkeeping], by simpa [stepBookkeeping] using hst⟩
      · intro h; exact absurd h (by simp)

theorem execStep_char (e : StepEnv) (step : Nat) (st : LoopState)
    (hst : st.completion_status = "in_progress") :
    ((execStep e step st).1 = false →
        (execStep e step st).2.states.length = st.states.length + 1
        ∧ (execStep e step st).2.completion_status = "in_progress")
    ∧ ((execStep e step st).1 = true →
        ((execStep e step st).2.completion_status = "completed"
            ∧ (execStep e step st).2.total_steps = step
            ∧ ((execStep e step st).2.states.length = st.states.length
              ∨ (execStep e step st).2.states.length = st.states.length + 1))
        ∨ ((execStep e step st).2.completion_status = "failed_infinite_loop"
            ∧ (execStep e step st).2.total_steps = step
            ∧ (execStep e step st).2.states.length = st.states.length)
        ∨ ((execStep e step st).2.completion_status = "failed_too_many_errors"
            ∧ (execStep e step st).2.total_steps = step
            ∧ (execStep e step st).2.states.length = st.states.length + 1)) := by
  unfold execStep
  by_cases h1 : (st.creation_completed && e.urlIndicatesSuccess) = true
  · rw [if_pos h1]
    constructor
    · intro h; exact absurd h (by simp)
    · intro _; left; exact ⟨rfl, rfl, Or.inl rfl⟩
  · rw [if_neg h1]
    by_cases h2 : action_signature e.plan = st.last_action_signature
        ∧ st.same_action_count + 1 ≥ 3
    · rw [if_pos h2]
      constructor
      · intro h; exact absurd h (by simp)
      · intro _; right; left; exact ⟨rfl, rfl, rfl⟩
    · rw [if_neg h2]
      have hchar := execStepAfterGuard_char e step
        { st with
          same_action_count :=
            if action_signature e.plan = st.last_action_signature
            then st.same_action_count + 1 else 0,
          last_action_signature := action_signature e.plan }
        hst
      constructor
      · intro h
        exact (hchar.1 h)
      · intro h
        rcases hchar.2 h with hc | hc
        · left; exact ⟨hc.1, hc.2.1, Or.inr hc.2.2⟩
        · right; right; exact hc

theorem runSteps_char (env : Nat → StepEnv) :
    ∀ (r step : Nat) (st : LoopState),
      st.completion_status = "in_progress" →
      st.states.length + 1 = step →
      ((runSteps env step r st).completion_status = "in_progress"
          ∧ (runSteps env step r st).states.length + 1 = step + r)
      ∨ ((runSteps env step r st).completion_status = "completed"
          ∧ ((runSteps env step r st).states.length = (runSteps env step r st).total_steps
            ∨ (runSteps env step r st).states.length + 1
                = (runSteps env step r st).total_steps))
      ∨ ((runSteps env step r st).completion_status = "failed_infinite_loop"
          ∧ (runSteps env step r st).states.length + 1 = (runSteps env step r st).total_steps)
      ∨ ((runSteps env step r st).completion_status = "failed_too_many_errors"
          ∧ (runSteps env step r st).states.length = (runSteps env step r st).total_steps) := by
  intro r
  induction r with
  | zero =>
    intro step st hst hlen
    left
    exact ⟨hst, by simpa [runSteps] using hlen⟩
  | succ r ih =>
    intro step st hst hlen
    have hchar := execStep_char (env step) step st hst
    simp only [runSteps]
    cases hstep : execStep (env step) step st with
    | mk broke st' =>
      cases broke with
      | true =>
        have hc := hchar.2 (by rw [hstep])
        rw [hstep] at hc
        simp only at hc ⊢
        rcases hc with hc | hc | hc
        · right; left
          refine ⟨hc.1, ?_⟩
          rcases hc.2.2 with h' | h'
          · right; omega
          · left; omega
        · right; right; left
          exact ⟨hc.1, by omega⟩
        · right; right; right
          exact ⟨hc.1, by omega⟩
      | false =>
        have hc := hchar.1 (by rw [hstep])
        rw [hstep] at hc
        simp only at hc ⊢
        have := ih (step + 1) st' hc.2 (by omega)
        rcases this with h' | h'
        · left; exact ⟨h'.1, by omega⟩
        · right; exact h'

/-- The state/step-count relation at loop exit, per terminal status: the
repetition guard and the early created-entity check break before the step's
UIState is appended, the other two terminal transitions after. -/
theorem execute_task_states_char (env : Nat → StepEnv) (max_steps : Nat) :
    ((execute_task env max_steps).completion_status = "max_steps_reached" →
        (execute_task env max_steps).states.length = (execute_task env max_steps).total_steps)
    ∧ ((execute_task env max_steps).completion_status = "completed" →
        (execute_task env max_steps).states.length = (execute_task env max_steps).total_steps
        ∨ (execute_task env max_steps).states.length + 1
            = (execute_task env max_steps).total_steps)
    ∧ ((execute_task env max_steps).completion_status = "failed_infinite_loop" →
        (execute_task env max_steps).states.length + 1
          = (execute_task env max_steps).total_steps)
    ∧ ((execute_task env max_steps).completion_status = "failed_too_many_errors" →
        (execute_task env max_steps).states.length
          = (execute_task env max_steps).total_steps) := by
  have hrun := runSteps_char env max_steps 1 initLoopState rfl rfl
  unfold execute_task
  rcases hrun with h | h | h | h
  · rw [if_pos h.1]
    refine ⟨fun _ => ?_, fun hc => ?_, fun hc => ?_, fun hc => ?_⟩
    · have := h.2; simp; omega
    · exact absurd hc (by simp)
    · exact absurd hc (by simp)
    · exact absurd hc (by simp)
  · rw [if_neg (by rw [h.1]; decide)]
    refine ⟨fun hc => ?_, fun _ => h.2, fun hc => ?_, fun hc => ?_⟩
    · rw [h.1] at hc; exact absurd hc (by decide)
    · rw [h.1] at hc; exact absurd hc (by decide)
    · rw [h.1] at hc; exact absurd hc (by decide)
  · rw [if_neg (by rw [h.1]; decide)]
    refine ⟨fun hc => ?_, fun hc => ?_, fun _ => h.2, fun hc => ?_⟩
    · rw [h.1] at hc; exact absurd hc (by decide)
    · rw [h.1] at hc; exact absurd hc (by decide)
    · rw [h.1] at hc; exact absurd hc (by decide)
  · rw [if_neg (by rw [h.1]; decide)]
    refine ⟨fun hc => ?_, fun hc => ?_, fun hc => ?_, fun _ => h.2⟩
    · rw [h.1] at hc; exact absurd hc (by decide)
    · rw [h.1] at hc; exact absurd hc (by decide)
    · rw [h.1] at hc; exact absurd hc (by decide)

/-! ## Claims C1, C5, C9 -/

/-- A planner that proposes the same successful wait action every step. -/
def c1Plan : ActionPlan :=
  { action := "wait", reasoning := some "stuck", target := some "pause",
    selector_type := none, value := some "", field_purpose := none,
    target_y_position := none, wait_after := some 1000,
    is_complete := some false, confidence := some 0 }

/-- A run whose every step proposes `c1Plan` and succeeds. -/
def c1Env : Nat → StepEnv := fun _ =>
  { screenshot_path := "s.png", url := "https://github.com/new", timestamp := "t0",
    urlIndicatesSuccess := false, plan := c1Plan, execResult := (true, "Waited 1000ms") }

/-- C1 counterexample: the planner proposes three consecutive ActionPlans
with identical signatures (steps 1-3 of `c1Env`), every action succeeds, and
the run does NOT terminate with `failed_infinite_loop` at the third step —
it exhausts the step budget instead, because the repeat counter reaches only
2 at the third identical plan and the guard fires at
`same_action_count >= 3`. -/
theorem c1_counterexample_three_identical :
    (∀ s : Nat, (c1Env s).plan = c1Plan ∧ (c1Env s).execResult.1 = true)
    ∧ (execute_task c1Env 3).completion_status = "max_steps_reached"
    ∧ (execute_task c1Env 3).completion_status ≠ "failed_infinite_loop" :=
  ⟨fun _ => ⟨rfl, rfl⟩, by decide, by decide⟩

/-- C1 (amended): the repeat counter counts repetitions of the previous
step's signature — it resets to zero on a non-matching signature, increments
on a match, and when a plan's signature matches for the third consecutive
time (i.e. at the fourth consecutive identical plan) the loop stops at that
step with `failed_infinite_loop`, even when every action reports success. -/
theorem c1_infinite_loop_guard :
    (∀ (e : StepEnv) (step : Nat) (st : LoopState),
      (st.creation_completed && e.urlIndicatesSuccess) = false →
      action_signature e.plan = st.last_action_signature →
      st.same_action_count = 2 →
      execStep e step st = (true,
        { st with
          same_action_count := 3,
          completion_status := "failed_infinite_loop", total_steps := step }))
    ∧ (∀ (e : StepEnv) (step : Nat) (st : LoopState),
      (st.creation_completed && e.urlIndicatesSuccess) = false →
      action_signature e.plan ≠ st.last_action_signature →
      (execStep e step st).2.same_action_count = 0)
    ∧ (∀ (e : StepEnv) (step : Nat) (st : LoopState),
      (st.creation_completed && e.urlIndicatesSuccess) = false →
      action_signature e.plan = st.last_action_signature →
      st.same_action_count + 1 < 3 →
      (execStep e step st).1 = false
        ∨ (execStep e step st).2.completion_status ≠ "failed_infinite_loop")
    ∧ ((∀ s : Nat, (c1Env s).plan = c1Plan ∧ (c1Env s).execResult.1 = true)
        ∧ (execute_task c1Env 6).completion_status = "failed_infinite_loop"
        ∧ (execute_task c1Env 6).total_steps = 4) := by
  refine ⟨?_, ?_, ?_, fun _ => ⟨rfl, rfl⟩, by decide, by decide⟩
  · intro e step st h1 hsig hcount
    unfold execStep
    rw [if_neg (by simp [h1]), if_pos ⟨hsig, by omega⟩, hcount]
  · intro e step st h1 hsig
    unfold execStep
    rw [if_neg (by simp [h1]), if_neg (by intro hc; exact hsig hc.1)]
    unfold execStepAfterGuard
    split_ifs <;> simp [stepBookkeeping, hsig]
  · intro e step st h1 hsig hcount
    unfold execStep
    rw [if_neg (by simp [h1]), if_neg (by intro hc; omega)]
    unfold execStepAfterGuard
    split_ifs <;> simp [stepBookkeeping]

/-- A loop state two repeats deep into the planner's signature. -/
def c1WitState : LoopState :=
  { initLoopState with
    last_action_signature := action_signature c1Plan, same_action_count := 2 }

/-- C1 witness: the guard clauses discharged at a concrete state two repeats
deep. -/
theorem c1_infinite_loop_guard_witness :
    execStep (c1Env 4) 4 c1WitState
      = (true,
        { c1WitState with
          same_action_count := 3,
          completion_status := "failed_infinite_loop", total_steps := 4 }) :=
  c1_infinite_loop_guard.1 (c1Env 4) 4 c1WitState (by decide) rfl rfl

/-- Confidence 0.9 in normal form. -/
def confNine : ℚ := ⟨9, 10, by norm_num, by norm_num⟩

/-- A planner that proposes a failing click on a fresh target each step, and
at step 4 additionally self-reports completion with confidence 0.9. -/
def c5Plan (n : Nat) : ActionPlan :=
  { action := "click", reasoning := none, target := some ("btn" ++ toString n),
    selector_type := some "text", value := none, field_purpose := none,
    target_y_position := none, wait_after := some 1000,
    is_complete := if n = 4 then some true else some false,
    confidence := if n = 4 then some confNine else some 0 }

/-- A run of four consecutive failures whose fourth plan self-reports
completion. -/
def c5Env : Nat → StepEnv := fun n =>
  { screenshot_path := "s.png", url := "https://github.com/new", timestamp := "t0",
    urlIndicatesSuccess := false, plan := c5Plan n,
    execResult := (false, "Could not click: btn") }

/-- C5 counterexample: every action of `c5Env` fails, the consecutive-failure
counter reaches 4 at step 4, yet the run terminates with status `completed`,
not `failed_too_many_errors` — the plan's self-reported completion
(confidence 0.9 > 0.7) is checked first (line 1560 before line 1568). -/
theorem c5_counterexample_completion_preempts :
    (∀ n : Nat, (c5Env n).execResult.1 = false)
    ∧ (execute_task c5Env 6).consecutive_failures = 4
    ∧ (execute_task c5Env 6).completion_status = "completed"
    ∧ (execute_task c5Env 6).total_steps = 4 :=
  ⟨fun _ => rfl, by decide, by decide, by decide⟩

/-- C5 (amended): after every executed action the consecutive-failure counter
resets to 0 on success and increments on failure; when it reaches 4 the loop
terminates at that step with `failed_too_many_errors`, regardless of the
step number — unless the same step's plan simultaneously self-reports
completion with confidence above 0.7, in which case the earlier completion
check wins and the status is `completed`. -/
theorem c5_failure_budget :
    (∀ (e : StepEnv) (step : Nat) (st : LoopState),
      (st.creation_completed && e.urlIndicatesSuccess) = false →
      ¬(action_signature e.plan = st.last_action_signature
          ∧ st.same_action_count + 1 ≥ 3) →
      (execStep e step st).2.consecutive_failures
        = (if e.execResult.1 then 0 else st.consecutive_failures + 1))
    ∧ (∀ (e : StepEnv) (step : Nat) (st : LoopState),
      (st.creation_completed && e.urlIndicatesSuccess) = false →
      ¬(action_signature e.plan = st.last_action_signature
          ∧ st.same_action_count + 1 ≥ 3) →
      e.execResult.1 = false →
      st.consecutive_failures = 3 →
      ¬(e.plan.is_complete.getD false
          && decide (e.plan.confidence.getD 0 > confidenceThreshold)) = true →
      (execStep e step st).1 = true
        ∧ (execStep e step st).2.completion_status = "failed_too_many_errors"
        ∧ (execStep e step st).2.total_steps = step) := by
  constructor
  · intro e step st h1 h2
    unfold execStep
    rw [if_neg (by simp [h1]), if_neg h2]
    unfold execStepAfterGuard
    split_ifs <;> simp_all [stepBookkeeping]
  · intro e step st h1 h2 hfail hcount hnc
    unfold execStep
    rw [if_neg (by simp [h1]), if_neg h2]
    unfold execStepAfterGuard
    rw [if_neg hnc, if_pos (by simp [stepBookkeeping, hfail, hcount])]
    exact ⟨rfl, rfl, rfl⟩

/-- C5 witness: the failure-budget clauses discharged at a concrete state
three failures deep. -/
theorem c5_failure_budget_witness :
    (execStep (c5Env 1) 9 { initLoopState with consecutive_failures := 3 }).1 = true
    ∧ (execStep (c5Env 1) 9
        { initLoopState with consecutive_failures := 3 }).2.completion_status
        = "failed_too_many_errors"
    ∧ (execStep (c5Env 1) 9
        { initLoopState with consecutive_failures := 3 }).2.total_steps = 9 :=
  c5_failure_budget.2 (c5Env 1) 9 { initLoopState with consecutive_failures := 3 }
    (by decide) (by decide) rfl rfl (by decide)

/-- C9 counterexample: the `failed_infinite_loop` run of `c1Env` terminates
at step 4 with `total_steps = 4` but only 3 UIState records — the guard
breaks before the step's UIState is appended, so the list length does not
equal `total_steps` for this terminal status. -/
theorem c9_counterexample_missing_state :
    (execute_task c1Env 6).completion_status = "failed_infinite_loop"
    ∧ (execute_task c1Env 6).states.length = 3
    ∧ (execute_task c1Env 6).total_steps = 4 :=
  ⟨by decide, by decide, by decide⟩

/-- C9 (amended): exactly one UIState record is appended per step that
reaches the execution phase, so at loop termination the UIState count equals
`total_steps` for the statuses `max_steps_reached` and
`failed_too_many_errors` and for a completion reported by the plan, but a
run stopped by the repetition guard (`failed_infinite_loop`) or by the early
created-entity URL check (one of the two `completed` paths) appends no
UIState for its final step, leaving the count at `total_steps - 1`. -/
theorem c9_ui_state_count (env : Nat → StepEnv) (max_steps : Nat) :
    ((execute_task env max_steps).completion_status = "max_steps_reached" →
        (execute_task env max_steps).states.length = (execute_task env max_steps).total_steps)
    ∧ ((execute_task env max_steps).completion_status = "completed" →
        (execute_task env max_steps).states.length = (execute_task env max_steps).total_steps
        ∨ (execute_task env max_steps).states.length + 1
            = (execute_task env max_steps).total_steps)
    ∧ ((execute_task env max_steps).completion_status = "failed_infinite_loop" →
        (execute_task env max_steps).states.length + 1
          = (execute_task env max_steps).total_steps)
    ∧ ((execute_task env max_steps).completion_status = "failed_too_many_errors" →
        (execute_task env max_steps).states.length
          = (execute_task env max_steps).total_steps) :=
  execute_task_states_char env max_steps

/-- C9 witness: the per-status count relation discharged on concrete runs. -/
theorem c9_ui_state_count_witness :
    (execute_task c1Env 6).states.length + 1 = (execute_task c1Env 6).total_steps :=
  (c9_ui_state_count c1Env 6).2.2.1 (by decide)

end MultiAgent
